/-
  Verification of the UI-description validation and state-reconciliation core
  of the ZoomInfoExercise repository.

  The development shallowly embeds:
  * the zod component schemas of `apps/web/src/schemas/ui-schemas.ts`
    (`parseUIComponent` = `UIComponentSchema.parse`, errors as `Except` values);
  * the shared-state patch handler of `apps/web/src/app/page.tsx`
    (`updateUIState` action handler, lines 135-158, and the identical
    `onStateUpdate` callback, lines 608-643);
  * the canvas dedup/replace controller `addToCanvas` (lines 371-422).

  JavaScript objects are modelled as association lists of string keys in
  insertion order (`JObj`), with JS spread / computed-key assignment as
  `setKey`/`spread2`, and JS truthiness as `jsFalsy`.  `Date.now()` is an
  explicit integer parameter `t` of each state-changing operation.
-/
import Mathlib

/-- A JavaScript JSON-like runtime value.  `obj` keeps fields as an
association list in insertion order, matching JS object key order. -/
inductive JValue where
  | str (s : String)
  | num (n : Int)
  | bool (b : Bool)
  | null
  | obj (fields : List (String × JValue))
  | arr (elems : List JValue)
deriving Repr

/-- A JavaScript object: string keys to values, in insertion order. -/
abbrev JObj := List (String × JValue)

/-- Property lookup `o[k]`: first (and in well-formed objects only)
occurrence of the key; `none` models `undefined`. -/
def getKey : JObj → String → Option JValue
  | [], _ => none
  | (k', v) :: rest, k => if k' = k then some v else getKey rest k

/-- Property assignment `o[k] = v` / a later entry in an object literal:
overwrites in place (keeping the key's position) or appends a new key,
exactly as JS object key ordering behaves. -/
def setKey : JObj → String → JValue → JObj
  | [], k, v => [(k, v)]
  | (k', v') :: rest, k, v =>
      if k' = k then (k, v) :: rest else (k', v') :: setKey rest k v

/-- Spread merge `{...a, ...b}`: entries of `b` assigned over `a` left to right. -/
def spread2 : JObj → JObj → JObj
  | a, [] => a
  | a, (k, v) :: rest => spread2 (setKey a k v) rest

/-- JS falsiness of a value (`undefined` is handled at `Option` level). -/
def jsFalsy : JValue → Bool
  | .null => true
  | .bool b => !b
  | .num n => n = 0
  | .str s => s = ""
  | .obj _ => false
  | .arr _ => false

/-- Index properties contributed by spreading an array or a string. -/
def indexProps (l : List JValue) : JObj :=
  l.enum.map (fun p => (toString p.1, p.2))

/-- The own enumerable properties `{...v}` contributes when spread. -/
def toSpreadObj : JValue → JObj
  | .obj o => o
  | .arr a => indexProps a
  | .str s => indexProps (s.toList.map (fun c => .str c.toString))
  | _ => []

/-- The guard `(typeof data === 'object' && data !== null ? data : {})` followed by
spread: objects and arrays contribute their entries, everything else `{}`. -/
def dataAsObj : JValue → JObj
  | .obj o => o
  | .arr a => indexProps a
  | _ => []

/-- The read `{...(currentUIState[stateKey] as Record<string,any> || {})}`: the
current section's entries, `{}` when absent or falsy. -/
def curSection (ui : JObj) (k : String) : JObj :=
  match getKey ui k with
  | none => []
  | some v => if jsFalsy v then [] else toSpreadObj v

/-- The shared-state patch of `page.tsx`: both the `updateUIState` copilot
action handler (lines 135-158) and the `onStateUpdate` callback passed to
`JSONRenderer` (lines 608-643) compute
`{...currentUIState, [stateKey]: {...cur, ...data}, lastUpdate: Date.now()}`.
`t` stands for the `Date.now()` reading of this call. -/
def updateUIState (ui : JObj) (stateKey : String) (data : JValue) (t : Int) : JObj :=
  setKey
    (setKey ui stateKey (.obj (spread2 (curSection ui stateKey) (dataAsObj data))))
    "lastUpdate" (.num t)

/-- The initial `uiState` of `useCoAgent` (page.tsx lines 82-89), with the
initial `Date.now()` reading `t`. -/
def uiStateInit (t : Int) : JObj :=
  [("components", .obj []), ("formData", .obj []), ("appData", .obj []),
   ("lastUpdate", .num t)]

/-- The three section keys of the shared state document. -/
def sectionKeys : List String := ["components", "formData", "appData"]

theorem getKey_setKey (o : JObj) (k k' : String) (v : JValue) :
    getKey (setKey o k v) k' = if k' = k then some v else getKey o k' := by
  induction o with
  | nil =>
      by_cases h : k' = k
      · simp [setKey, getKey, h]
      · have h2 : ¬ k = k' := fun hh => h hh.symm
        simp [setKey, getKey, h, h2]
  | cons hd tl ih =>
      obtain ⟨a, b⟩ := hd
      by_cases hak : a = k
      · by_cases h : a = k'
        · subst hak; subst h
          simp [setKey, getKey]
        · subst hak
          have h2 : ¬ k' = a := fun hh => h hh.symm
          simp [setKey, getKey, h, h2]
      · by_cases h : a = k'
        · subst h
          simp [setKey, getKey, hak]
        · simp [setKey, getKey, hak, h, ih]

/-
  ## The validator (`apps/web/src/schemas/ui-schemas.ts`)

  zod's `.parse` throws a `ZodError` carrying a list of issues; the caller
  (`addToCanvas`) catches it.  We embed throwing as `Except`: an error is the
  issue list of the thrown `ZodError`.
-/

/-- The zod issues the schemas of `ui-schemas.ts` can produce.  `received`
fields are `Option JValue` with `none` for JS `undefined`. -/
inductive ZodIssue where
  | invalidType (expected received : String)
  | invalidLiteral (expected : JValue) (received : Option JValue)
  | invalidEnumValue (options : List String) (received : Option JValue)
  | invalidUnion (unionErrors : List (List ZodIssue))
  | tooSmall (minimum : Int)
  | tooBig (maximum : Int)
deriving Repr

/-- Result of parsing one schema: the value, or the issues collected. -/
abbrev PResult (α : Type) := Except (List ZodIssue) α

/-- Applicative combination that accumulates issues from both sides, the way
a zod object parse collects the issues of all its fields. -/
def zap {α β : Type} : PResult (α → β) → PResult α → PResult β
  | .ok f, .ok a => .ok (f a)
  | .ok _, .error e => .error e
  | .error e, .ok _ => .error e
  | .error e1, .error e2 => .error (e1 ++ e2)

/-- The issues of a result (`[]` on success). -/
def errsOf {α : Type} : PResult α → List ZodIssue
  | .ok _ => []
  | .error e => e

/-- Whether a result is a success. -/
def pOk {α : Type} : PResult α → Bool
  | .ok _ => true
  | .error _ => false

/-- zod's `parsedType` name of a (possibly `undefined`) value. -/
def jsTypeName : Option JValue → String
  | none => "undefined"
  | some .null => "null"
  | some (.str _) => "string"
  | some (.num _) => "number"
  | some (.bool _) => "boolean"
  | some (.obj _) => "object"
  | some (.arr _) => "array"

/-- Zod `z.string()` applied to a field value. -/
def pString (v : Option JValue) : PResult String :=
  match v with
  | some (.str s) => .ok s
  | v => .error [.invalidType "string" (jsTypeName v)]

/-- Zod `z.number()` applied to a field value (numbers modelled as `Int`). -/
def pNumber (v : Option JValue) : PResult Int :=
  match v with
  | some (.num n) => .ok n
  | v => .error [.invalidType "number" (jsTypeName v)]

/-- Zod `z.number().min(lo).max(hi)`. -/
def pNumberRange (lo hi : Int) (v : Option JValue) : PResult Int :=
  match v with
  | some (.num n) =>
      if n < lo then .error [.tooSmall lo]
      else if hi < n then .error [.tooBig hi]
      else .ok n
  | v => .error [.invalidType "number" (jsTypeName v)]

/-- Zod `z.boolean()`. -/
def pBoolean (v : Option JValue) : PResult Bool :=
  match v with
  | some (.bool b) => .ok b
  | v => .error [.invalidType "boolean" (jsTypeName v)]

/-- Zod `z.literal(lit)` for the string literals of the schemas: strict equality
with the literal, any other value (including `undefined`) is an
`invalid_literal` issue carrying the received value. -/
def pLiteral (lit : String) (v : Option JValue) : PResult Unit :=
  match v with
  | some (.str s) =>
      if s = lit then .ok () else .error [.invalidLiteral (.str lit) (some (.str s))]
  | v => .error [.invalidLiteral (.str lit) v]

/-- Zod `z.enum([...])`: a string among the options. -/
def pEnum (options : List String) (v : Option JValue) : PResult String :=
  match v with
  | some (.str s) =>
      if options.contains s then .ok s
      else .error [.invalidEnumValue options (some (.str s))]
  | v => .error [.invalidType (String.intercalate " | " options) (jsTypeName v)]

/-- Zod `.optional()`: absent stays absent, present values are parsed. -/
def pOpt {α : Type} (f : Option JValue → PResult α) (v : Option JValue) :
    PResult (Option α) :=
  match v with
  | none => .ok none
  | some x => (f (some x)).map some

/-- Zod `.default(d)` (also `.optional().default(d)`): absent becomes the
declared default, present values are parsed. -/
def pDefault {α : Type} (d : α) (f : Option JValue → PResult α) (v : Option JValue) :
    PResult α :=
  match v with
  | none => .ok d
  | some x => f (some x)

/-- Element-wise array parse, collecting the issues of every element. -/
def pArrayElems {α : Type} (f : JValue → PResult α) : List JValue → PResult (List α)
  | [] => .ok []
  | x :: xs => zap (zap (.ok (fun a as => a :: as)) (f x)) (pArrayElems f xs)

/-- Zod `z.array(inner)`. -/
def pArray {α : Type} (f : JValue → PResult α) (v : Option JValue) :
    PResult (List α) :=
  match v with
  | some (.arr xs) => pArrayElems f xs
  | v => .error [.invalidType "array" (jsTypeName v)]

/-- Entries of `z.record(z.string())`. -/
def pRecordStringEntries : List (String × JValue) → PResult (List (String × String))
  | [] => .ok []
  | (k, x) :: xs =>
      zap (zap (.ok (fun s rest => (k, s) :: rest)) (pString (some x)))
        (pRecordStringEntries xs)

/-- Zod `z.record(z.string())`. -/
def pRecordString (v : Option JValue) : PResult (List (String × String)) :=
  match v with
  | some (.obj o) => pRecordStringEntries o
  | v => .error [.invalidType "object" (jsTypeName v)]

/-- Zod `z.record(z.any())`: any object, values untouched. -/
def pRecordAny (v : Option JValue) : PResult (List (String × JValue)) :=
  match v with
  | some (.obj o) => .ok o
  | v => .error [.invalidType "object" (jsTypeName v)]

/-- Zod `z.union([z.string(), z.number()])` for data-point values. -/
inductive StrOrNum where
  | s (s : String)
  | n (n : Int)
deriving DecidableEq, Repr

/-- The `value: z.union([z.string(), z.number()])` field of chart data. -/
def pStrOrNum (v : Option JValue) : PResult StrOrNum :=
  match v with
  | some (.str s) => .ok (.s s)
  | some (.num n) => .ok (.n n)
  | v =>
      .error [.invalidUnion [[.invalidType "string" (jsTypeName v)],
                             [.invalidType "number" (jsTypeName v)]]]

/-
  ## Normalized component descriptions

  One structure per schema of `ui-schemas.ts`, holding exactly the declared
  fields after default application (the `type` discriminant is carried by
  the `UIComponent` constructor; unknown keys are stripped, as by zod).
-/

/-- Result shape of `WeatherComponentSchema`. -/
structure WeatherComponent where
  id : String
  title : Option String
  className : Option String
  style : Option (List (String × String))
  location : String
  temperature : Option String
  description : Option String
  humidity : Option String
  windSpeed : Option String
  feelsLike : Option String
  icon : Option String
deriving Repr

/-- An element of `DataVisualizationSchema`'s `data` array. -/
structure DataPoint where
  label : String
  value : StrOrNum
  color : Option String
deriving DecidableEq, Repr

/-- Result shape of `DataVisualizationSchema`. -/
structure DataVisualizationComponent where
  id : String
  title : Option String
  className : Option String
  style : Option (List (String × String))
  chartType : String
  data : List DataPoint
  xAxis : Option String
  yAxis : Option String
deriving Repr

/-- The nested `validation` object of `FormFieldSchema`. -/
structure FormValidation where
  min : Option Int
  max : Option Int
  pattern : Option String
  message : Option String
deriving DecidableEq, Repr

/-- Result shape of `FormFieldSchema`. -/
structure FormField where
  name : String
  type : String
  label : Option String
  placeholder : Option String
  required : Bool
  options : Option (List String)
  validation : Option FormValidation
deriving DecidableEq, Repr

/-- The nested `submitButton` object of `FormComponentSchema`. -/
structure SubmitButton where
  text : String
  style : String
deriving DecidableEq, Repr

/-- Result shape of `FormComponentSchema`. -/
structure FormComponent where
  id : String
  title : Option String
  className : Option String
  style : Option (List (String × String))
  description : Option String
  fields : List FormField
  submitButton : Option SubmitButton
  onSubmit : Option String
deriving Repr

/-- Result shape of `ActionButtonSchema`. -/
structure ActionButton where
  label : String
  action : String
  params : Option (List (String × JValue))
  style : String
  size : String
  disabled : Bool
  icon : Option String
deriving Repr

/-- Result shape of `ActionCardSchema`. -/
structure ActionCardComponent where
  id : String
  title : Option String
  className : Option String
  style : Option (List (String × String))
  description : Option String
  image : Option String
  actions : List ActionButton
  variant : String
deriving Repr

/-- The `span` object of `DashboardSectionSchema`. -/
structure Span where
  cols : Int
  rows : Int
deriving DecidableEq, Repr

/-- The `component` union of a dashboard section: only leaf variants or a
bare metric value — never another dashboard or workflow. -/
inductive SectionComponent where
  | weather (c : WeatherComponent)
  | dataVisualization (c : DataVisualizationComponent)
  | form (c : FormComponent)
  | actionCard (c : ActionCardComponent)
  | metric (value : String) (unit : Option String)
deriving Repr

/-- Result shape of `DashboardSectionSchema`. -/
structure DashboardSection where
  id : String
  type : String
  title : String
  span : Option Span
  component : SectionComponent
deriving Repr

/-- Result shape of `DashboardSchema`. -/
structure DashboardComponent where
  id : String
  title : Option String
  className : Option String
  style : Option (List (String × String))
  layout : String
  sections : List DashboardSection
  gridCols : Int
  gap : String
deriving Repr

/-- The optional `component` union of a workflow step: a form, an action
card, or a bare info value. -/
inductive StepComponent where
  | form (c : FormComponent)
  | actionCard (c : ActionCardComponent)
  | info (content : String)
deriving Repr

/-- Result shape of `WorkflowStepSchema`. -/
structure WorkflowStep where
  id : String
  title : String
  description : Option String
  type : String
  completed : Bool
  component : Option StepComponent
deriving Repr

/-- Result shape of `WorkflowSchema`. -/
structure WorkflowComponent where
  id : String
  title : Option String
  className : Option String
  style : Option (List (String × String))
  currentStep : Int
  steps : List WorkflowStep
  showProgress : Bool
  allowSkip : Bool
deriving Repr

/-- Result shape of `UIComponentSchema`: the tagged union over the six variants. -/
inductive UIComponent where
  | weather (c : WeatherComponent)
  | dataVisualization (c : DataVisualizationComponent)
  | form (c : FormComponent)
  | actionCard (c : ActionCardComponent)
  | dashboard (c : DashboardComponent)
  | workflow (c : WorkflowComponent)
deriving Repr

/-- Zod `.optional()` for schemas whose parser takes the value directly. -/
def pOptV {α : Type} (f : JValue → PResult α) (v : Option JValue) :
    PResult (Option α) :=
  match v with
  | none => .ok none
  | some x => (f x).map some

/-- Parse against `WeatherComponentSchema`: base fields, `type` literal
`"weather"`, required `location`, optional string extras. -/
def parseWeatherComponent (v : JValue) : PResult WeatherComponent :=
  match v with
  | .obj o =>
      let r1 := zap (.ok (fun id (_ty : Unit) title className style location
            temperature description humidity windSpeed feelsLike icon =>
            (⟨id, title, className, style, location, temperature, description,
              humidity, windSpeed, feelsLike, icon⟩ : WeatherComponent)))
          (pString (getKey o "id"))
      let r2 := zap r1 (pLiteral "weather" (getKey o "type"))
      let r3 := zap r2 (pOpt pString (getKey o "title"))
      let r4 := zap r3 (pOpt pString (getKey o "className"))
      let r5 := zap r4 (pOpt pRecordString (getKey o "style"))
      let r6 := zap r5 (pString (getKey o "location"))
      let r7 := zap r6 (pOpt pString (getKey o "temperature"))
      let r8 := zap r7 (pOpt pString (getKey o "description"))
      let r9 := zap r8 (pOpt pString (getKey o "humidity"))
      let r10 := zap r9 (pOpt pString (getKey o "windSpeed"))
      let r11 := zap r10 (pOpt pString (getKey o "feelsLike"))
      zap r11 (pOpt pString (getKey o "icon"))
  | v => .error [.invalidType "object" (jsTypeName (some v))]

/-- Parse one entry of `DataVisualizationSchema`'s `data` array. -/
def parseDataPoint (v : JValue) : PResult DataPoint :=
  match v with
  | .obj o =>
      let r1 := zap (.ok (fun label value color =>
            (⟨label, value, color⟩ : DataPoint)))
          (pString (getKey o "label"))
      let r2 := zap r1 (pStrOrNum (getKey o "value"))
      zap r2 (pOpt pString (getKey o "color"))
  | v => .error [.invalidType "object" (jsTypeName (some v))]

/-- Parse against `DataVisualizationSchema`: `chartType` defaults to
`"table"`, required `data` array. -/
def parseDataVisualization (v : JValue) : PResult DataVisualizationComponent :=
  match v with
  | .obj o =>
      let r1 := zap (.ok (fun id (_ty : Unit) title className style chartType
            data xAxis yAxis =>
            (⟨id, title, className, style, chartType, data, xAxis, yAxis⟩ :
              DataVisualizationComponent)))
          (pString (getKey o "id"))
      let r2 := zap r1 (pLiteral "dataVisualization" (getKey o "type"))
      let r3 := zap r2 (pOpt pString (getKey o "title"))
      let r4 := zap r3 (pOpt pString (getKey o "className"))
      let r5 := zap r4 (pOpt pRecordString (getKey o "style"))
      let r6 := zap r5 (pDefault "table"
          (pEnum ["bar", "line", "pie", "table"]) (getKey o "chartType"))
      let r7 := zap r6 (pArray parseDataPoint (getKey o "data"))
      let r8 := zap r7 (pOpt pString (getKey o "xAxis"))
      zap r8 (pOpt pString (getKey o "yAxis"))
  | v => .error [.invalidType "object" (jsTypeName (some v))]

/-- Parse the nested `validation` object of a form field. -/
def parseFormValidation (v : JValue) : PResult FormValidation :=
  match v with
  | .obj o =>
      let r1 := zap (.ok (fun min max pat message =>
            (⟨min, max, pat, message⟩ : FormValidation)))
          (pOpt pNumber (getKey o "min"))
      let r2 := zap r1 (pOpt pNumber (getKey o "max"))
      let r3 := zap r2 (pOpt pString (getKey o "pattern"))
      zap r3 (pOpt pString (getKey o "message"))
  | v => .error [.invalidType "object" (jsTypeName (some v))]

/-- Parse against `FormFieldSchema`: `required` defaults to `false`. -/
def parseFormField (v : JValue) : PResult FormField :=
  match v with
  | .obj o =>
      let r1 := zap (.ok (fun name ty label placeholder required options
            validation =>
            (⟨name, ty, label, placeholder, required, options, validation⟩ :
              FormField)))
          (pString (getKey o "name"))
      let r2 := zap r1 (pEnum ["text", "email", "password", "number",
          "textarea", "select", "checkbox", "radio"] (getKey o "type"))
      let r3 := zap r2 (pOpt pString (getKey o "label"))
      let r4 := zap r3 (pOpt pString (getKey o "placeholder"))
      let r5 := zap r4 (pDefault false pBoolean (getKey o "required"))
      let r6 := zap r5 (pOpt (pArray (fun x => pString (some x)))
          (getKey o "options"))
      zap r6 (pOptV parseFormValidation (getKey o "validation"))
  | v => .error [.invalidType "object" (jsTypeName (some v))]

/-- Parse the nested `submitButton` object: `text` defaults to `"Submit"`,
`style` to `"primary"`. -/
def parseSubmitButton (v : JValue) : PResult SubmitButton :=
  match v with
  | .obj o =>
      let r1 := zap (.ok (fun text style => (⟨text, style⟩ : SubmitButton)))
          (pDefault "Submit" pString (getKey o "text"))
      zap r1 (pDefault "primary"
          (pEnum ["primary", "secondary", "success", "danger"])
          (getKey o "style"))
  | v => .error [.invalidType "object" (jsTypeName (some v))]

/-- Parse against `FormComponentSchema`: required `fields` array, optional
`submitButton` object (no default at the object level). -/
def parseFormComponent (v : JValue) : PResult FormComponent :=
  match v with
  | .obj o =>
      let r1 := zap (.ok (fun id (_ty : Unit) title className style description
            fields submitButton onSubmit =>
            (⟨id, title, className, style, description, fields, submitButton,
              onSubmit⟩ : FormComponent)))
          (pString (getKey o "id"))
      let r2 := zap r1 (pLiteral "form" (getKey o "type"))
      let r3 := zap r2 (pOpt pString (getKey o "title"))
      let r4 := zap r3 (pOpt pString (getKey o "className"))
      let r5 := zap r4 (pOpt pRecordString (getKey o "style"))
      let r6 := zap r5 (pOpt pString (getKey o "description"))
      let r7 := zap r6 (pArray parseFormField (getKey o "fields"))
      let r8 := zap r7 (pOptV parseSubmitButton (getKey o "submitButton"))
      zap r8 (pOpt pString (getKey o "onSubmit"))
  | v => .error [.invalidType "object" (jsTypeName (some v))]

/-- Parse against `ActionButtonSchema`: `style` defaults to `"primary"`,
`size` to `"md"`, `disabled` to `false`. -/
def parseActionButton (v : JValue) : PResult ActionButton :=
  match v with
  | .obj o =>
      let r1 := zap (.ok (fun label action params style size disabled icon =>
            (⟨label, action, params, style, size, disabled, icon⟩ :
              ActionButton)))
          (pString (getKey o "label"))
      let r2 := zap r1 (pString (getKey o "action"))
      let r3 := zap r2 (pOpt pRecordAny (getKey o "params"))
      let r4 := zap r3 (pDefault "primary"
          (pEnum ["primary", "secondary", "success", "warning", "danger"])
          (getKey o "style"))
      let r5 := zap r4 (pDefault "md" (pEnum ["sm", "md", "lg"])
          (getKey o "size"))
      let r6 := zap r5 (pDefault false pBoolean (getKey o "disabled"))
      zap r6 (pOpt pString (getKey o "icon"))
  | v => .error [.invalidType "object" (jsTypeName (some v))]

/-- Parse against `ActionCardSchema`: required `actions` array, `variant`
defaults to `"default"`. -/
def parseActionCard (v : JValue) : PResult ActionCardComponent :=
  match v with
  | .obj o =>
      let r1 := zap (.ok (fun id (_ty : Unit) title className style description
            image actions variant =>
            (⟨id, title, className, style, description, image, actions,
              variant⟩ : ActionCardComponent)))
          (pString (getKey o "id"))
      let r2 := zap r1 (pLiteral "actionCard" (getKey o "type"))
      let r3 := zap r2 (pOpt pString (getKey o "title"))
      let r4 := zap r3 (pOpt pString (getKey o "className"))
      let r5 := zap r4 (pOpt pRecordString (getKey o "style"))
      let r6 := zap r5 (pOpt pString (getKey o "description"))
      let r7 := zap r6 (pOpt pString (getKey o "image"))
      let r8 := zap r7 (pArray parseActionButton (getKey o "actions"))
      zap r8 (pDefault "default" (pEnum ["default", "outlined", "elevated"])
          (getKey o "variant"))
  | v => .error [.invalidType "object" (jsTypeName (some v))]

/-- Parse the `span` object of a dashboard section: `cols` in 1..12
defaulting to 1, `rows` in 1..6 defaulting to 1. -/
def parseSpan (v : JValue) : PResult Span :=
  match v with
  | .obj o =>
      let r1 := zap (.ok (fun cols rows => (⟨cols, rows⟩ : Span)))
          (pDefault 1 (pNumberRange 1 12) (getKey o "cols"))
      zap r1 (pDefault 1 (pNumberRange 1 6) (getKey o "rows"))
  | v => .error [.invalidType "object" (jsTypeName (some v))]

/-- Parse the inline metric object of a dashboard section's component
union: `{type: "metric", value, unit?}`. -/
def parseMetric (v : JValue) : PResult (String × Option String) :=
  match v with
  | .obj o =>
      let r1 := zap (.ok (fun (_ty : Unit) value unit => (value, unit)))
          (pLiteral "metric" (getKey o "type"))
      let r2 := zap r1 (pString (getKey o "value"))
      zap r2 (pOpt pString (getKey o "unit"))
  | v => .error [.invalidType "object" (jsTypeName (some v))]

/-- The `component` union of `DashboardSectionSchema`: weather, data
visualization, form, action card, or metric — tried in declaration order,
all failing yields one `invalid_union` issue. -/
def parseSectionComponent (v : JValue) : PResult SectionComponent :=
  match parseWeatherComponent v with
  | .ok c => .ok (.weather c)
  | .error e1 =>
    match parseDataVisualization v with
    | .ok c => .ok (.dataVisualization c)
    | .error e2 =>
      match parseFormComponent v with
      | .ok c => .ok (.form c)
      | .error e3 =>
        match parseActionCard v with
        | .ok c => .ok (.actionCard c)
        | .error e4 =>
          match parseMetric v with
          | .ok m => .ok (.metric m.1 m.2)
          | .error e5 => .error [.invalidUnion [e1, e2, e3, e4, e5]]

/-- Parse against `DashboardSectionSchema`. -/
def parseDashboardSection (v : JValue) : PResult DashboardSection :=
  match v with
  | .obj o =>
      let r1 := zap (.ok (fun id ty title span component =>
            (⟨id, ty, title, span, component⟩ : DashboardSection)))
          (pString (getKey o "id"))
      let r2 := zap r1 (pEnum ["metric", "chart", "table", "form", "weather",
          "actionCard"] (getKey o "type"))
      let r3 := zap r2 (pString (getKey o "title"))
      let r4 := zap r3 (pOptV parseSpan (getKey o "span"))
      zap r4 (match getKey o "component" with
        | some x => parseSectionComponent x
        | none => .error [.invalidUnion
            (List.replicate 5 [.invalidType "object" "undefined"])])
  | v => .error [.invalidType "object" (jsTypeName (some v))]

/-- Parse against `DashboardSchema`: `layout` defaults to `"grid"`,
`gridCols` to 3 (bounded 1..12), `gap` to `"md"`. -/
def parseDashboard (v : JValue) : PResult DashboardComponent :=
  match v with
  | .obj o =>
      let r1 := zap (.ok (fun id (_ty : Unit) title className style layout
            sections gridCols gap =>
            (⟨id, title, className, style, layout, sections, gridCols, gap⟩ :
              DashboardComponent)))
          (pString (getKey o "id"))
      let r2 := zap r1 (pLiteral "dashboard" (getKey o "type"))
      let r3 := zap r2 (pOpt pString (getKey o "title"))
      let r4 := zap r3 (pOpt pString (getKey o "className"))
      let r5 := zap r4 (pOpt pRecordString (getKey o "style"))
      let r6 := zap r5 (pDefault "grid" (pEnum ["grid", "columns", "rows"])
          (getKey o "layout"))
      let r7 := zap r6 (pArray parseDashboardSection (getKey o "sections"))
      let r8 := zap r7 (pDefault 3 (pNumberRange 1 12) (getKey o "gridCols"))
      zap r8 (pDefault "md" (pEnum ["sm", "md", "lg"]) (getKey o "gap"))
  | v => .error [.invalidType "object" (jsTypeName (some v))]

/-- The optional `component` union of `WorkflowStepSchema`: form, action
card, or `{type: "info", content}`. -/
def parseStepComponent (v : JValue) : PResult StepComponent :=
  match parseFormComponent v with
  | .ok c => .ok (.form c)
  | .error e1 =>
    match parseActionCard v with
    | .ok c => .ok (.actionCard c)
    | .error e2 =>
      match v with
      | .obj o =>
          let r1 := zap (.ok (fun (_ty : Unit) content => content))
              (pLiteral "info" (getKey o "type"))
          (match zap r1 (pString (getKey o "content")) with
           | .ok content => .ok (.info content)
           | .error e3 => .error [.invalidUnion [e1, e2, e3]])
      | v => .error [.invalidUnion [e1, e2,
          [.invalidType "object" (jsTypeName (some v))]]]

/-- Parse against `WorkflowStepSchema`: `completed` defaults to `false`,
`component` is optional. -/
def parseWorkflowStep (v : JValue) : PResult WorkflowStep :=
  match v with
  | .obj o =>
      let r1 := zap (.ok (fun id title description ty completed component =>
            (⟨id, title, description, ty, completed, component⟩ :
              WorkflowStep)))
          (pString (getKey o "id"))
      let r2 := zap r1 (pString (getKey o "title"))
      let r3 := zap r2 (pOpt pString (getKey o "description"))
      let r4 := zap r3 (pEnum ["form", "info", "action", "review"]
          (getKey o "type"))
      let r5 := zap r4 (pDefault false pBoolean (getKey o "completed"))
      zap r5 (pOptV parseStepComponent (getKey o "component"))
  | v => .error [.invalidType "object" (jsTypeName (some v))]

/-- Parse against `WorkflowSchema`: `currentStep` defaults to 0,
`showProgress` to `true`, `allowSkip` to `false`. -/
def parseWorkflow (v : JValue) : PResult WorkflowComponent :=
  match v with
  | .obj o =>
      let r1 := zap (.ok (fun id (_ty : Unit) title className style currentStep
            steps showProgress allowSkip =>
            (⟨id, title, className, style, currentStep, steps, showProgress,
              allowSkip⟩ : WorkflowComponent)))
          (pString (getKey o "id"))
      let r2 := zap r1 (pLiteral "workflow" (getKey o "type"))
      let r3 := zap r2 (pOpt pString (getKey o "title"))
      let r4 := zap r3 (pOpt pString (getKey o "className"))
      let r5 := zap r4 (pOpt pRecordString (getKey o "style"))
      let r6 := zap r5 (pDefault 0 pNumber (getKey o "currentStep"))
      let r7 := zap r6 (pArray parseWorkflowStep (getKey o "steps"))
      let r8 := zap r7 (pDefault true pBoolean (getKey o "showProgress"))
      zap r8 (pDefault false pBoolean (getKey o "allowSkip"))
  | v => .error [.invalidType "object" (jsTypeName (some v))]

/-- The exported `parseUIComponent` (`ui-schemas.ts` lines 170-172):
`UIComponentSchema.parse`, the `z.union` of the six variant schemas tried in
declaration order; when all fail, the thrown `ZodError` holds one
`invalid_union` issue carrying every branch's issues. -/
def parseUIComponent (v : JValue) : PResult UIComponent :=
  match parseWeatherComponent v with
  | .ok c => .ok (.weather c)
  | .error e1 =>
    match parseDataVisualization v with
    | .ok c => .ok (.dataVisualization c)
    | .error e2 =>
      match parseFormComponent v with
      | .ok c => .ok (.form c)
      | .error e3 =>
        match parseActionCard v with
        | .ok c => .ok (.actionCard c)
        | .error e4 =>
          match parseDashboard v with
          | .ok c => .ok (.dashboard c)
          | .error e5 =>
            match parseWorkflow v with
            | .ok c => .ok (.workflow c)
            | .error e6 => .error [.invalidUnion [e1, e2, e3, e4, e5, e6]]

/-
  ## The canvas/dedup controller (`page.tsx`, `addToCanvas`, lines 371-422)
-/

/-- One materialized canvas instance (the element type of the
`canvasComponents` React state, page.tsx lines 109-114): render-scoped
`id`, the wrapped description's `componentId`, the description itself, and
the insertion timestamp. -/
structure CanvasComponent where
  id : String
  componentId : String
  json : UIComponent
  timestamp : Int
deriving Repr

/-- The mutable state `addToCanvas` touches: the shared `uiState` document
(untouched by `addToCanvas` but carried so frame conditions can state it), the
ordered canvas list, and the `processedResults` dedup set (a `ref` holding
a JS `Set`, modelled as a duplicate-free list). -/
structure PageState where
  uiState : JObj
  canvasComponents : List CanvasComponent
  processedResults : List String
deriving Repr

/-- The `id` base field shared by every variant (`component.id`). -/
def UIComponent.idOf : UIComponent → String
  | .weather c => c.id
  | .dataVisualization c => c.id
  | .form c => c.id
  | .actionCard c => c.id
  | .dashboard c => c.id
  | .workflow c => c.id

/-- JS `Array.prototype.findIndex` (`none` models `-1`). -/
def findIndex {α : Type} (p : α → Bool) : List α → Option Nat
  | [] => none
  | x :: xs => if p x then some 0 else (findIndex p xs).map (· + 1)

/-- The helper `addToCanvas(jsonData, resultHash)` (page.tsx lines 371-422), for an
object argument.  `t` stands for the `Date.now()` readings of the call (the
canvas-id and timestamp readings happen in the same tick).  A parse failure
is caught inside the function (`catch` at line 418): nothing is mutated.
The deferring `setTimeout(..., 0)` only postpones the state update; the
resulting state transition is as modelled. -/
def addToCanvasPage (st : PageState) (jsonData : JValue) (resultHash : String)
    (t : Int) : PageState :=
  if resultHash ≠ "" ∧ st.processedResults.contains resultHash then st
  else
    match parseUIComponent jsonData with
    | .error _ => st
    | .ok comp =>
        let newC : CanvasComponent :=
          { id := comp.idOf ++ "-canvas-" ++ toString t,
            componentId := comp.idOf, json := comp, timestamp := t }
        { st with
          canvasComponents :=
            match findIndex (fun c => c.componentId == comp.idOf)
                st.canvasComponents with
            | some i => st.canvasComponents.set i newC
            | none => st.canvasComponents ++ [newC],
          processedResults :=
            if resultHash ≠ "" then st.processedResults ++ [resultHash]
            else st.processedResults }

/-
  ## Basic lemmas about issue accumulation
-/

theorem errsOf_zap {α β : Type} (f : PResult (α → β)) (x : PResult α) :
    errsOf (zap f x) = errsOf f ++ errsOf x := by
  cases f <;> cases x <;> simp [zap, errsOf]

theorem pOk_zap {α β : Type} (f : PResult (α → β)) (x : PResult α) :
    pOk (zap f x) = (pOk f && pOk x) := by
  cases f <;> cases x <;> simp [zap, pOk]

theorem error_of_not_pOk {α : Type} (x : PResult α) (h : pOk x = false) :
    x = .error (errsOf x) := by
  cases x with
  | ok a => simp [pOk] at h
  | error e => rfl

theorem pLiteral_mismatch (lit : String) (v : Option JValue)
    (h : v ≠ some (.str lit)) :
    pLiteral lit v = .error [.invalidLiteral (.str lit) v] := by
  match v with
  | none => rfl
  | some (.str s) =>
      have hs : ¬ s = lit := fun hh => h (by rw [hh])
      simp [pLiteral, hs]
  | some (.num _) | some (.bool _) | some .null | some (.obj _)
  | some (.arr _) => rfl

/-- The six `type` discriminants of `ComponentRegistry` /
`UIComponentSchema`. -/
def knownDiscriminants : List String :=
  ["weather", "dataVisualization", "form", "actionCard", "dashboard",
   "workflow"]

/-- Whether a (possibly absent) `type` field value is a known
discriminant. -/
def isKnownDiscriminant : Option JValue → Bool
  | some (.str s) => knownDiscriminants.contains s
  | _ => false

/-- The `type` field of an input value (`none` when absent or when the
input is not an object). -/
def typeFieldOf : JValue → Option JValue
  | .obj o => getKey o "type"
  | _ => none

theorem pOk_error {α : Type} (e : List ZodIssue) :
    pOk (α := α) (.error e) = false := rfl

theorem errsOf_error {α : Type} (e : List ZodIssue) :
    errsOf (α := α) (.error e) = e := rfl

theorem ne_of_not_known (v : Option JValue)
    (h : isKnownDiscriminant v = false) (s : String)
    (hs : knownDiscriminants.contains s = true) : v ≠ some (.str s) := by
  intro hv
  rw [hv] at h
  have h2 : knownDiscriminants.contains s = false := h
  rw [hs] at h2
  exact Bool.noConfusion h2

theorem parseWeatherComponent_not_ok (o : JObj)
    (h : getKey o "type" ≠ some (.str "weather")) :
    pOk (parseWeatherComponent (.obj o)) = false := by
  have hl := pLiteral_mismatch "weather" (getKey o "type") h
  simp [parseWeatherComponent, pOk_zap, hl, pOk_error]

theorem parseWeatherComponent_mentions (o : JObj)
    (h : getKey o "type" ≠ some (.str "weather")) :
    ZodIssue.invalidLiteral (.str "weather") (getKey o "type") ∈
      errsOf (parseWeatherComponent (.obj o)) := by
  have hl := pLiteral_mismatch "weather" (getKey o "type") h
  simp [parseWeatherComponent, errsOf_zap, hl, errsOf_error]

theorem parseDataVisualization_not_ok (o : JObj)
    (h : getKey o "type" ≠ some (.str "dataVisualization")) :
    pOk (parseDataVisualization (.obj o)) = false := by
  have hl := pLiteral_mismatch "dataVisualization" (getKey o "type") h
  simp [parseDataVisualization, pOk_zap, hl, pOk_error]

theorem parseFormComponent_not_ok (o : JObj)
    (h : getKey o "type" ≠ some (.str "form")) :
    pOk (parseFormComponent (.obj o)) = false := by
  have hl := pLiteral_mismatch "form" (getKey o "type") h
  simp [parseFormComponent, pOk_zap, hl, pOk_error]

theorem parseActionCard_not_ok (o : JObj)
    (h : getKey o "type" ≠ some (.str "actionCard")) :
    pOk (parseActionCard (.obj o)) = false := by
  have hl := pLiteral_mismatch "actionCard" (getKey o "type") h
  simp [parseActionCard, pOk_zap, hl, pOk_error]

theorem parseDashboard_not_ok (o : JObj)
    (h : getKey o "type" ≠ some (.str "dashboard")) :
    pOk (parseDashboard (.obj o)) = false := by
  have hl := pLiteral_mismatch "dashboard" (getKey o "type") h
  simp [parseDashboard, pOk_zap, hl, pOk_error]

theorem parseWorkflow_not_ok (o : JObj)
    (h : getKey o "type" ≠ some (.str "workflow")) :
    pOk (parseWorkflow (.obj o)) = false := by
  have hl := pLiteral_mismatch "workflow" (getKey o "type") h
  simp [parseWorkflow, pOk_zap, hl, pOk_error]

/-- C5: validating any value whose `type` field is absent or not a known
discriminant yields a thrown validation error — never a silent default
variant — and, for object inputs, the union error's first branch contains
the `invalid_literal` issue whose `received` field names the offending
`type` value. -/
theorem unknownVariant_rejected (j : JValue)
    (h : isKnownDiscriminant (typeFieldOf j) = false) :
    (∃ errs, parseUIComponent j = .error errs) ∧
    (∀ o, j = .obj o →
      ∃ es, parseUIComponent j = .error [.invalidUnion es] ∧
        ∃ e, e ∈ es ∧
          ZodIssue.invalidLiteral (.str "weather") (getKey o "type") ∈ e) := by
  cases j with
  | obj o =>
      have ht : isKnownDiscriminant (getKey o "type") = false := h
      have h1 := ne_of_not_known _ ht "weather" (by decide)
      have h2 := ne_of_not_known _ ht "dataVisualization" (by decide)
      have h3 := ne_of_not_known _ ht "form" (by decide)
      have h4 := ne_of_not_known _ ht "actionCard" (by decide)
      have h5 := ne_of_not_known _ ht "dashboard" (by decide)
      have h6 := ne_of_not_known _ ht "workflow" (by decide)
      have e1 := error_of_not_pOk _ (parseWeatherComponent_not_ok o h1)
      have e2 := error_of_not_pOk _ (parseDataVisualization_not_ok o h2)
      have e3 := error_of_not_pOk _ (parseFormComponent_not_ok o h3)
      have e4 := error_of_not_pOk _ (parseActionCard_not_ok o h4)
      have e5 := error_of_not_pOk _ (parseDashboard_not_ok o h5)
      have e6 := error_of_not_pOk _ (parseWorkflow_not_ok o h6)
      have hu : parseUIComponent (.obj o) =
          .error [.invalidUnion
            [errsOf (parseWeatherComponent (.obj o)),
             errsOf (parseDataVisualization (.obj o)),
             errsOf (parseFormComponent (.obj o)),
             errsOf (parseActionCard (.obj o)),
             errsOf (parseDashboard (.obj o)),
             errsOf (parseWorkflow (.obj o))]] := by
        rw [parseUIComponent]
        rw [e1, e2, e3, e4, e5, e6]
        rfl
      refine ⟨⟨_, hu⟩, ?_⟩
      intro o' ho'
      cases ho'
      refine ⟨_, hu, errsOf (parseWeatherComponent (.obj o)), ?_, ?_⟩
      · simp
      · exact parseWeatherComponent_mentions o h1
  | str s =>
      exact ⟨⟨_, rfl⟩, fun o ho => by cases ho⟩
  | num n =>
      exact ⟨⟨_, rfl⟩, fun o ho => by cases ho⟩
  | bool b =>
      exact ⟨⟨_, rfl⟩, fun o ho => by cases ho⟩
  | null =>
      exact ⟨⟨_, rfl⟩, fun o ho => by cases ho⟩
  | arr a =>
      exact ⟨⟨_, rfl⟩, fun o ho => by cases ho⟩

/-- The concrete scenario input of the spec: `{"type":"bogus"}`. -/
def bogusInput : JValue := .obj [("type", .str "bogus")]

/-- Witness for C5 at the spec's own scenario `{"type":"bogus"}`. -/
theorem unknownVariant_rejected_witness :
    isKnownDiscriminant (typeFieldOf bogusInput) = false ∧
    ((∃ errs, parseUIComponent bogusInput = .error errs) ∧
     (∀ o, bogusInput = .obj o →
       ∃ es, parseUIComponent bogusInput = .error [.invalidUnion es] ∧
         ∃ e, e ∈ es ∧
           ZodIssue.invalidLiteral (.str "weather") (getKey o "type") ∈ e)) :=
  ⟨by decide, unknownVariant_rejected bogusInput (by decide)⟩

/-
  ## Composite nesting depth
-/

/-- Depth of a dashboard section's embedded component: the union admits
only leaf variants and bare metrics. -/
def SectionComponent.depth : SectionComponent → Nat
  | .weather _ => 1
  | .dataVisualization _ => 1
  | .form _ => 1
  | .actionCard _ => 1
  | .metric _ _ => 1

/-- Depth of a workflow step's embedded component: the union admits only
forms, action cards and bare info values. -/
def StepComponent.depth : StepComponent → Nat
  | .form _ => 1
  | .actionCard _ => 1
  | .info _ => 1

/-- Maximum of a list of naturals (0 for the empty list). -/
def listMax : List Nat → Nat
  | [] => 0
  | x :: xs => max x (listMax xs)

/-- Composite-nesting depth of a normalized description: leaves have depth
1, the composites `dashboard` and `workflow` add one level above their
embedded components. -/
def UIComponent.depth : UIComponent → Nat
  | .weather _ => 1
  | .dataVisualization _ => 1
  | .form _ => 1
  | .actionCard _ => 1
  | .dashboard d => 1 + listMax (d.sections.map (fun s => s.component.depth))
  | .workflow w => 1 + listMax (w.steps.map (fun s =>
      match s.component with
      | none => 0
      | some sc => sc.depth))

theorem listMax_le (l : List Nat) (n : Nat) (h : ∀ x ∈ l, x ≤ n) :
    listMax l ≤ n := by
  induction l with
  | nil => simp [listMax]
  | cons x xs ih =>
      simp only [listMax, max_le_iff]
      exact ⟨h x (by simp), ih (fun y hy => h y (by simp [hy]))⟩

/-- C9: every description accepted by the validator has composite-nesting
depth at most 2 — a dashboard section or workflow step can embed only leaf
variants (never another dashboard or workflow), so no deeper tree and no
`MaxDepthExceeded` condition is reachable from validated input. -/
theorem accepted_depth_le_two (j : JValue) (c : UIComponent)
    (_hp : parseUIComponent j = .ok c) : c.depth ≤ 2 := by
  cases c with
  | weather c =>
      show (1 : Nat) ≤ 2
      decide
  | dataVisualization c =>
      show (1 : Nat) ≤ 2
      decide
  | form c =>
      show (1 : Nat) ≤ 2
      decide
  | actionCard c =>
      show (1 : Nat) ≤ 2
      decide
  | dashboard d =>
      show 1 + listMax (d.sections.map (fun s => s.component.depth)) ≤ 2
      have hm : listMax (d.sections.map (fun s => s.component.depth)) ≤ 1 := by
        refine listMax_le _ _ ?_
        intro x hx
        obtain ⟨s, _, hs⟩ := List.mem_map.mp hx
        rw [← hs]
        cases s.component <;> simp [SectionComponent.depth]
      omega
  | workflow w =>
      show 1 + listMax (w.steps.map (fun s =>
          match s.component with
          | none => 0
          | some sc => sc.depth)) ≤ 2
      have hm : listMax (w.steps.map (fun s =>
          match s.component with
          | none => 0
          | some sc => sc.depth)) ≤ 1 := by
        refine listMax_le _ _ ?_
        intro x hx
        obtain ⟨s, _, hs⟩ := List.mem_map.mp hx
        rw [← hs]
        cases hc : s.component with
        | none =>
            show (0 : Nat) ≤ 1
            decide
        | some sc => cases sc <;> simp [StepComponent.depth]
      omega

/-- A concrete dashboard input whose section embeds a metric component. -/
def dashInput : JValue :=
  .obj [("type", .str "dashboard"), ("id", .str "d1"),
        ("sections", .arr [.obj [("id", .str "s1"), ("type", .str "metric"),
          ("title", .str "T"),
          ("component", .obj [("type", .str "metric"),
                              ("value", .str "42")])]])]

/-- The normalized result of validating `dashInput`. -/
def dashParsed : DashboardComponent :=
  { id := "d1", title := none, className := none, style := none,
    layout := "grid",
    sections := [{ id := "s1", type := "metric", title := "T", span := none,
                   component := .metric "42" none }],
    gridCols := 3, gap := "md" }

/-- Witness for C9: a concrete composite description is accepted and its
depth is within the bound. -/
theorem accepted_depth_le_two_witness :
    parseUIComponent dashInput = .ok (.dashboard dashParsed) ∧
    UIComponent.depth (.dashboard dashParsed) ≤ 2 :=
  ⟨rfl, accepted_depth_le_two dashInput (.dashboard dashParsed) rfl⟩

/-
  ## The form-defaults scenario (C2)
-/

/-- The spec's form scenario input:
`{"type":"form","id":"f1","fields":[{"name":"email","type":"email"}]}`. -/
def formScenarioInput : JValue :=
  .obj [("type", .str "form"), ("id", .str "f1"),
        ("fields", .arr [.obj [("name", .str "email"),
                               ("type", .str "email")]])]

/-- The same scenario with an explicit empty `submitButton` object. -/
def formScenarioInputSB : JValue :=
  .obj [("type", .str "form"), ("id", .str "f1"),
        ("fields", .arr [.obj [("name", .str "email"),
                               ("type", .str "email")]]),
        ("submitButton", .obj [])]

/-- The normalized result of validating `formScenarioInput`. -/
def formScenarioParsed : FormComponent :=
  { id := "f1", title := none, className := none, style := none,
    description := none,
    fields := [{ name := "email", type := "email", label := none,
                 placeholder := none, required := false, options := none,
                 validation := none }],
    submitButton := none, onSubmit := none }

/-- The normalized result of validating `formScenarioInputSB`. -/
def formScenarioParsedSB : FormComponent :=
  { formScenarioParsed with
    submitButton := some { text := "Submit", style := "primary" } }

/-- Counterexample to C2: the scenario input validates, the field's
`required` does default to `false`, but the returned description has **no**
`submitButton` at all — `submitButton` is `.optional()` with no
object-level default, so `submitButton.text` is not `"Submit"`. -/
theorem formScenario_submitButton_absent :
    parseUIComponent formScenarioInput = .ok (.form formScenarioParsed) ∧
    formScenarioParsed.submitButton = none :=
  ⟨rfl, rfl⟩

/-- C2 as amended: for the scenario input, validation succeeds with
`required = false` and `submitButton` absent; the `"Submit"` text default
is applied only when a `submitButton` object is supplied without a
`text` field. -/
theorem formScenario_defaults :
    parseUIComponent formScenarioInput = .ok (.form formScenarioParsed) ∧
    formScenarioParsed.fields.map (fun f => f.required) = [false] ∧
    formScenarioParsed.submitButton = none ∧
    parseUIComponent formScenarioInputSB = .ok (.form formScenarioParsedSB) ∧
    formScenarioParsedSB.submitButton.map (fun b => b.text) = some "Submit" :=
  ⟨rfl, rfl, rfl, rfl, rfl⟩

/-
  ## Fail-closed validation (C1)
-/

/-- C1: a validation failure is caught inside `addToCanvas` and surfaces
as a value (the `Except.error` of the embedded `parseUIComponent`); for
every malformed input the whole page state — the shared `uiState` document,
the canvas instance list and the dedup memory — is exactly unchanged. -/
theorem malformed_input_leaves_state_unchanged (st : PageState) (j : JValue)
    (resultHash : String) (t : Int)
    (he : pOk (parseUIComponent j) = false) :
    addToCanvasPage st j resultHash t = st := by
  rw [addToCanvasPage]
  split
  · rfl
  · rw [error_of_not_pOk _ he]

/-- A fresh page state with empty canvas and dedup memory. -/
def pageState0 : PageState :=
  { uiState := uiStateInit 0, canvasComponents := [], processedResults := [] }

/-- Witness for C1 at the malformed input `{"type":"bogus"}`. -/
theorem malformed_input_leaves_state_unchanged_witness :
    pOk (parseUIComponent bogusInput) = false ∧
    addToCanvasPage pageState0 bogusInput "" 0 = pageState0 :=
  ⟨rfl, malformed_input_leaves_state_unchanged pageState0 bogusInput "" 0 rfl⟩

theorem findIndex_lt_length {α : Type} (p : α → Bool) (l : List α) (i : Nat)
    (h : findIndex p l = some i) : i < l.length := by
  induction l generalizing i with
  | nil => simp [findIndex] at h
  | cons x xs ih =>
      simp only [findIndex] at h
      by_cases hx : p x = true
      · rw [if_pos hx] at h
        simp only [Option.some.injEq] at h
        simp only [List.length_cons]
        omega
      · rw [if_neg hx] at h
        cases hf : findIndex p xs with
        | none => rw [hf] at h; simp at h
        | some i' =>
            rw [hf] at h
            simp only [Option.map_some', Option.some.injEq] at h
            have := ih i' hf
            simp only [List.length_cons]
            omega

/-- C6: admitting a description whose `id` matches an existing instance's
`componentId` replaces that instance in place: the list keeps its length,
slot `i` holds the new instance (fresh canvas id, updated payload and
timestamp), and every other slot is untouched. -/
theorem admit_replaces_in_place (st : PageState) (j : JValue)
    (resultHash : String) (t : Int) (comp : UIComponent) (i : Nat)
    (hp : parseUIComponent j = .ok comp)
    (hh : ¬ (resultHash ≠ "" ∧ st.processedResults.contains resultHash = true))
    (hf : findIndex (fun c => c.componentId == comp.idOf)
        st.canvasComponents = some i) :
    (addToCanvasPage st j resultHash t).canvasComponents =
      st.canvasComponents.set i
        { id := comp.idOf ++ "-canvas-" ++ toString t,
          componentId := comp.idOf, json := comp, timestamp := t } ∧
    (addToCanvasPage st j resultHash t).canvasComponents.length =
      st.canvasComponents.length ∧
    (addToCanvasPage st j resultHash t).canvasComponents[i]? =
      some { id := comp.idOf ++ "-canvas-" ++ toString t,
             componentId := comp.idOf, json := comp, timestamp := t } ∧
    (∀ k, k ≠ i →
      (addToCanvasPage st j resultHash t).canvasComponents[k]? =
        st.canvasComponents[k]?) := by
  have hset : (addToCanvasPage st j resultHash t).canvasComponents =
      st.canvasComponents.set i
        { id := comp.idOf ++ "-canvas-" ++ toString t,
          componentId := comp.idOf, json := comp, timestamp := t } := by
    rw [addToCanvasPage, if_neg hh, hp]
    dsimp only
    rw [hf]
  refine ⟨hset, ?_, ?_, ?_⟩
  · rw [hset, List.length_set]
  · rw [hset]
    exact List.getElem?_set_eq_of_lt _ (findIndex_lt_length _ _ _ hf)
  · intro k hk
    rw [hset]
    exact List.getElem?_set_ne (fun hik => hk hik.symm)

/-- The spec's weather scenario input. -/
def weatherInput : JValue :=
  .obj [("type", .str "weather"), ("id", .str "w1"),
        ("location", .str "Tokyo")]

/-- The normalized result of validating `weatherInput`. -/
def weatherParsed : WeatherComponent :=
  { id := "w1", title := none, className := none, style := none,
    location := "Tokyo", temperature := none, description := none,
    humidity := none, windSpeed := none, feelsLike := none, icon := none }

/-- A page state already holding one canvas instance wrapping `w1`. -/
def pageStateW : PageState :=
  { uiState := uiStateInit 0,
    canvasComponents := [{ id := "w1-canvas-1", componentId := "w1",
                           json := .weather weatherParsed, timestamp := 1 }],
    processedResults := [] }

/-- Witness for C6: re-admitting `w1` replaces slot 0 in place. -/
theorem admit_replaces_in_place_witness :
    parseUIComponent weatherInput = .ok (.weather weatherParsed) ∧
    (addToCanvasPage pageStateW weatherInput "h2" 5).canvasComponents =
      pageStateW.canvasComponents.set 0
        { id := "w1-canvas-5", componentId := "w1",
          json := .weather weatherParsed, timestamp := 5 } ∧
    (addToCanvasPage pageStateW weatherInput "h2" 5).canvasComponents.length =
      pageStateW.canvasComponents.length := by
  have h := admit_replaces_in_place pageStateW weatherInput "h2" 5
    (.weather weatherParsed) 0 rfl (by decide) rfl
  exact ⟨rfl, h.1, h.2.1⟩

/-- C7: with a supplied (non-empty) dedup key, a second admission of the
same payload in the same session is a no-op — the page state after two
calls equals the state after one, whatever the second call's clock says. -/
theorem admit_dedup_idempotent (st : PageState) (j : JValue) (h : String)
    (t t' : Int) (hne : h ≠ "") :
    addToCanvasPage (addToCanvasPage st j h t) j h t' =
      addToCanvasPage st j h t := by
  by_cases hc : st.processedResults.contains h = true
  · have h1 : addToCanvasPage st j h t = st := by
      rw [addToCanvasPage, if_pos ⟨hne, hc⟩]
    rw [h1, addToCanvasPage, if_pos ⟨hne, hc⟩]
  · have hc' : ¬ (h ≠ "" ∧ st.processedResults.contains h = true) :=
      fun hx => hc hx.2
    cases hp : parseUIComponent j with
    | error e =>
        have h1 : addToCanvasPage st j h t = st := by
          rw [addToCanvasPage, if_neg hc', hp]
        rw [h1, addToCanvasPage, if_neg hc', hp]
    | ok comp =>
        have hmem : (addToCanvasPage st j h t).processedResults.contains h
            = true := by
          rw [addToCanvasPage, if_neg hc', hp]
          dsimp only
          rw [if_pos hne]
          simp
        conv_lhs => rw [addToCanvasPage]
        rw [if_pos ⟨hne, hmem⟩]

/-
  ## Lemmas about the shared-state patch
-/

theorem getKey_updateUIState_self (ui : JObj) (sk : String) (data : JValue)
    (t : Int) (hL : sk ≠ "lastUpdate") :
    getKey (updateUIState ui sk data t) sk =
      some (.obj (spread2 (curSection ui sk) (dataAsObj data))) := by
  rw [updateUIState, getKey_setKey, if_neg hL, getKey_setKey, if_pos rfl]

theorem getKey_updateUIState_last (ui : JObj) (sk : String) (data : JValue)
    (t : Int) :
    getKey (updateUIState ui sk data t) "lastUpdate" = some (.num t) := by
  rw [updateUIState, getKey_setKey, if_pos rfl]

theorem getKey_updateUIState_other (ui : JObj) (sk : String) (data : JValue)
    (t : Int) (k : String) (h1 : k ≠ sk) (h2 : k ≠ "lastUpdate") :
    getKey (updateUIState ui sk data t) k = getKey ui k := by
  rw [updateUIState, getKey_setKey, if_neg h2, getKey_setKey, if_neg h1]

theorem curSection_updateUIState_self (ui : JObj) (sk : String) (data : JValue)
    (t : Int) (hL : sk ≠ "lastUpdate") :
    curSection (updateUIState ui sk data t) sk =
      spread2 (curSection ui sk) (dataAsObj data) := by
  rw [curSection, getKey_updateUIState_self ui sk data t hL]
  rfl

theorem sectionKey_ne_lastUpdate (sk : String) (h : sk ∈ sectionKeys) :
    sk ≠ "lastUpdate" := by
  simp only [sectionKeys, List.mem_cons, List.not_mem_nil, or_false] at h
  rcases h with h | h | h <;> subst h <;> decide

/-
  ## C3: `lastUpdate` under same-tick patches
-/

/-- A document whose `lastUpdate` is currently 5. -/
def uiFive : JObj := uiStateInit 5

/-- Counterexample to C3: a patch applied within the same clock tick
(`Date.now()` still reads 5) leaves `lastUpdate` at 5 — equal to, not
strictly greater than, its previous value.  The handler assigns
`Date.now()` directly; there is no logical counter. -/
theorem lastUpdate_not_strictly_increasing :
    getKey uiFive "lastUpdate" = some (.num 5) ∧
    getKey (updateUIState uiFive "formData"
        (.obj [("f1", .obj [("email", .str "a")])]) 5) "lastUpdate" =
      some (.num 5) :=
  ⟨rfl, rfl⟩

/-- C3 as amended: every successful state update sets `lastUpdate` to the
current clock reading `t`; whenever the clock has not gone backwards since
the previous apply, the new value is greater than **or equal to** the old —
two patches within one tick receive equal values, so the sequence is
non-decreasing but not strictly increasing. -/
theorem lastUpdate_set_to_clock (ui : JObj) (sk : String) (data : JValue)
    (t t0 : Int) (h0 : getKey ui "lastUpdate" = some (.num t0))
    (hm : t0 ≤ t) :
    getKey (updateUIState ui sk data t) "lastUpdate" = some (.num t) ∧
    (∃ u0 u1, getKey ui "lastUpdate" = some (.num u0) ∧
      getKey (updateUIState ui sk data t) "lastUpdate" = some (.num u1) ∧
      u0 ≤ u1) :=
  ⟨getKey_updateUIState_last ui sk data t,
   ⟨t0, t, h0, getKey_updateUIState_last ui sk data t, hm⟩⟩

/-- Witness for the amended C3 at a concrete store and clock values. -/
theorem lastUpdate_set_to_clock_witness :
    getKey uiFive "lastUpdate" = some (.num 5) ∧ (5 : Int) ≤ 7 ∧
    (getKey (updateUIState uiFive "formData"
        (.obj [("f1", .obj [("email", .str "a")])]) 7) "lastUpdate" =
      some (.num 7) ∧
     (∃ u0 u1, getKey uiFive "lastUpdate" = some (.num u0) ∧
       getKey (updateUIState uiFive "formData"
          (.obj [("f1", .obj [("email", .str "a")])]) 7) "lastUpdate" =
         some (.num u1) ∧ u0 ≤ u1)) :=
  ⟨rfl, by decide,
   lastUpdate_set_to_clock uiFive "formData"
     (.obj [("f1", .obj [("email", .str "a")])]) 7 5 rfl (by decide)⟩

/-
  ## C4: structurally invalid section keys
-/

/-- The concrete patch `{a: 1}`. -/
def patchA : JValue := .obj [("a", .num 1)]

/-- Counterexample to C4: a patch under the unknown section key `"bogus"`
is **not** rejected — the handler's computed-key update creates a `"bogus"`
section holding the patch and bumps `lastUpdate`, so the store is mutated
and no `InvalidSection` error exists anywhere in the handler. -/
theorem invalid_section_not_rejected :
    getKey (uiStateInit 0) "bogus" = none ∧
    getKey (updateUIState (uiStateInit 0) "bogus" patchA 7) "bogus" =
      some (.obj [("a", .num 1)]) ∧
    getKey (updateUIState (uiStateInit 0) "bogus" patchA 7) "lastUpdate" =
      some (.num 7) ∧
    updateUIState (uiStateInit 0) "bogus" patchA 7 ≠ uiStateInit 0 := by
  refine ⟨rfl, rfl, rfl, ?_⟩
  intro hEq
  have h1 : getKey (updateUIState (uiStateInit 0) "bogus" patchA 7) "bogus" =
      some (.obj [("a", .num 1)]) := rfl
  rw [hEq] at h1
  exact Option.noConfusion
    ((rfl : getKey (uiStateInit 0) "bogus" = none).symm.trans h1)

/-- C4 as amended: a patch whose `sectionKey` is none of the known keys is
silently admitted: the three real sections are left unchanged, but a new
section appears under the unknown key holding the shallow-merged patch, and
`lastUpdate` is still bumped — there is no `InvalidSection` rejection. -/
theorem unknown_section_created (ui : JObj) (sk : String) (data : JValue)
    (t : Int)
    (h : sk ∉ ["components", "formData", "appData", "lastUpdate"]) :
    (∀ k ∈ sectionKeys, getKey (updateUIState ui sk data t) k = getKey ui k) ∧
    getKey (updateUIState ui sk data t) "lastUpdate" = some (.num t) ∧
    getKey (updateUIState ui sk data t) sk =
      some (.obj (spread2 (curSection ui sk) (dataAsObj data))) := by
  simp only [List.mem_cons, List.not_mem_nil, or_false, not_or] at h
  obtain ⟨hC, hF, hA, hL⟩ := h
  refine ⟨?_, getKey_updateUIState_last ui sk data t,
    getKey_updateUIState_self ui sk data t hL⟩
  intro k hk
  simp only [sectionKeys, List.mem_cons, List.not_mem_nil, or_false] at hk
  rcases hk with hk | hk | hk <;> subst hk
  · exact getKey_updateUIState_other ui sk data t _
      (fun hh => hC hh.symm) (by decide)
  · exact getKey_updateUIState_other ui sk data t _
      (fun hh => hF hh.symm) (by decide)
  · exact getKey_updateUIState_other ui sk data t _
      (fun hh => hA hh.symm) (by decide)

/-- Witness for the amended C4 at the unknown key `"bogus"`. -/
theorem unknown_section_created_witness :
    ("bogus" ∉ ["components", "formData", "appData", "lastUpdate"]) ∧
    ((∀ k ∈ sectionKeys,
        getKey (updateUIState (uiStateInit 0) "bogus" patchA 7) k =
          getKey (uiStateInit 0) k) ∧
     getKey (updateUIState (uiStateInit 0) "bogus" patchA 7) "lastUpdate" =
       some (.num 7) ∧
     getKey (updateUIState (uiStateInit 0) "bogus" patchA 7) "bogus" =
       some (.obj (spread2 (curSection (uiStateInit 0) "bogus")
         (dataAsObj patchA)))) :=
  ⟨by decide, unknown_section_created (uiStateInit 0) "bogus" patchA 7
    (by decide)⟩

/-
  ## C8: disjoint-key patches commute
-/

/-- C8: for any store, any real section, and single-key patches to two
distinct keys `A ≠ B`, applying them in either order leaves every other
top-level entry identical and produces addressed sections that agree on
every key — the documents differ at most in `lastUpdate` (and in internal
key insertion order of the section object, invisible to lookups). -/
theorem disjoint_patches_commute (ui : JObj) (sk A B : String)
    (v1 v2 : JValue) (t1 t2 t1' t2' : Int)
    (hsk : sk ∈ sectionKeys) (hAB : A ≠ B) :
    (∀ k, k ≠ sk → k ≠ "lastUpdate" →
      getKey (updateUIState (updateUIState ui sk (.obj [(A, v1)]) t1) sk
          (.obj [(B, v2)]) t2) k =
      getKey (updateUIState (updateUIState ui sk (.obj [(B, v2)]) t1') sk
          (.obj [(A, v1)]) t2') k) ∧
    (∃ s1 s2,
      getKey (updateUIState (updateUIState ui sk (.obj [(A, v1)]) t1) sk
          (.obj [(B, v2)]) t2) sk = some (.obj s1) ∧
      getKey (updateUIState (updateUIState ui sk (.obj [(B, v2)]) t1') sk
          (.obj [(A, v1)]) t2') sk = some (.obj s2) ∧
      ∀ sub, getKey s1 sub = getKey s2 sub) := by
  have hL := sectionKey_ne_lastUpdate sk hsk
  constructor
  · intro k hk hkL
    rw [getKey_updateUIState_other _ _ _ _ _ hk hkL,
        getKey_updateUIState_other _ _ _ _ _ hk hkL,
        getKey_updateUIState_other _ _ _ _ _ hk hkL,
        getKey_updateUIState_other _ _ _ _ _ hk hkL]
  · refine ⟨setKey (setKey (curSection ui sk) A v1) B v2,
      setKey (setKey (curSection ui sk) B v2) A v1, ?_, ?_, ?_⟩
    · rw [getKey_updateUIState_self _ _ _ _ hL,
        curSection_updateUIState_self _ _ _ _ hL]
      rfl
    · rw [getKey_updateUIState_self _ _ _ _ hL,
        curSection_updateUIState_self _ _ _ _ hL]
      rfl
    · intro sub
      have hBA : B ≠ A := fun hh => hAB hh.symm
      rw [getKey_setKey, getKey_setKey, getKey_setKey, getKey_setKey]
      by_cases hA : sub = A <;> by_cases hB : sub = B
      · exact absurd (hA.symm.trans hB) hAB
      · simp [hA, hB, hAB]
      · simp [hA, hB, hBA]
      · simp [hA, hB]

/-- Witness for C8 at a concrete store, section and key pair. -/
theorem disjoint_patches_commute_witness :
    ("formData" ∈ sectionKeys) ∧ ("x" : String) ≠ "y" ∧
    ((∀ k, k ≠ "formData" → k ≠ "lastUpdate" →
      getKey (updateUIState (updateUIState (uiStateInit 0) "formData"
          (.obj [("x", .num 1)]) 1) "formData" (.obj [("y", .num 2)]) 2) k =
      getKey (updateUIState (updateUIState (uiStateInit 0) "formData"
          (.obj [("y", .num 2)]) 3) "formData" (.obj [("x", .num 1)]) 4) k) ∧
    (∃ s1 s2,
      getKey (updateUIState (updateUIState (uiStateInit 0) "formData"
          (.obj [("x", .num 1)]) 1) "formData" (.obj [("y", .num 2)]) 2)
          "formData" = some (.obj s1) ∧
      getKey (updateUIState (updateUIState (uiStateInit 0) "formData"
          (.obj [("y", .num 2)]) 3) "formData" (.obj [("x", .num 1)]) 4)
          "formData" = some (.obj s2) ∧
      ∀ sub, getKey s1 sub = getKey s2 sub)) :=
  ⟨by decide, by decide,
   disjoint_patches_commute (uiStateInit 0) "formData" "x" "y"
     (.num 1) (.num 2) 1 2 3 4 (by decide) (by decide)⟩

/-
  ## C10: a non-object `data` argument
-/

/-- Whether a value fails the handler's
`typeof data === 'object' && data !== null` guard (arrays pass it). -/
def isNonObjectData : JValue → Bool
  | .obj _ => false
  | .arr _ => false
  | _ => true

theorem dataAsObj_nonobject (data : JValue) (h : isNonObjectData data = true) :
    dataAsObj data = [] := by
  cases data <;> simp [isNonObjectData] at h <;> rfl

/-- C10: when a state update is invoked with `data` that is not a non-null
object, the guard replaces it by `{}`, so the addressed section keeps
exactly its current value (every entry unchanged), while `lastUpdate` is
still set to the current time and every other top-level entry is
untouched. -/
theorem nonobject_patch_noop (ui : JObj) (sk : String) (c : JObj)
    (data : JValue) (t : Int)
    (hsk : sk ∈ sectionKeys) (hdata : isNonObjectData data = true)
    (hsec : getKey ui sk = some (.obj c)) :
    getKey (updateUIState ui sk data t) sk = some (.obj c) ∧
    getKey (updateUIState ui sk data t) "lastUpdate" = some (.num t) ∧
    ∀ k, k ≠ sk → k ≠ "lastUpdate" →
      getKey (updateUIState ui sk data t) k = getKey ui k := by
  have hL := sectionKey_ne_lastUpdate sk hsk
  refine ⟨?_, getKey_updateUIState_last ui sk data t,
    fun k hk hkL => getKey_updateUIState_other ui sk data t k hk hkL⟩
  rw [getKey_updateUIState_self ui sk data t hL, dataAsObj_nonobject data hdata]
  have hcs : curSection ui sk = c := by
    rw [curSection, hsec]
    rfl
  rw [hcs]
  rfl

/-- Witness for C10: a string-valued `data` argument at the `formData`
section of a store holding `{f1: {}}`. -/
theorem nonobject_patch_noop_witness :
    getKey (uiStateInit 0) "formData" = some (.obj []) ∧
    isNonObjectData (.str "oops") = true ∧
    (getKey (updateUIState (uiStateInit 0) "formData" (.str "oops") 9)
        "formData" = some (.obj []) ∧
     getKey (updateUIState (uiStateInit 0) "formData" (.str "oops") 9)
        "lastUpdate" = some (.num 9) ∧
     ∀ k, k ≠ "formData" → k ≠ "lastUpdate" →
       getKey (updateUIState (uiStateInit 0) "formData" (.str "oops") 9) k =
         getKey (uiStateInit 0) k) :=
  ⟨rfl, rfl,
   nonobject_patch_noop (uiStateInit 0) "formData" [] (.str "oops") 9
     (by decide) rfl rfl⟩

/-- Witness for C7: two admissions of the weather description under dedup
key `"h1"` equal a single admission. -/
theorem admit_dedup_idempotent_witness :
    ("h1" : String) ≠ "" ∧
    addToCanvasPage (addToCanvasPage pageState0 weatherInput "h1" 1)
        weatherInput "h1" 2 =
      addToCanvasPage pageState0 weatherInput "h1" 1 :=
  ⟨by decide,
   admit_dedup_idempotent pageState0 weatherInput "h1" 1 2 (by decide)⟩
